import Mathlib

/-!
Verification of the Civilytix API Services usage-metering and geospatial
cost-tracking logic, embedded shallowly from the JavaScript sources.

The client-side `CostTracker` (`src/services/costTracker.js`) keeps four
running counters in `this.currentUsage`; its `canMakeRequest` is a demo
stub returning `true`, and `recordRequest` increments all four counters.
JavaScript numbers are modelled by `ℚ` for monetary amounts (no rounding
occurs in the modelled code paths) and `ℕ` for request counters, which the
code only ever initialises to 0 and increments by 1.
-/

namespace Civilytix

/-- The `currentUsage` object of `CostTracker`: running totals for the
current day and month (`src/services/costTracker.js`, constructor). -/
structure Usage where
  cost_today : ℚ
  requests_today : ℕ
  cost_month : ℚ
  requests_month : ℕ
deriving DecidableEq, Repr

/-- The mutable state of a `CostTracker` instance: `this.userId`,
`this.userTier`, `this.currentUsage` (the `apiClient` collaborator carries
no state relevant to the modelled methods and is omitted). -/
structure CostTracker where
  userId : Option String
  userTier : String
  currentUsage : Usage
deriving DecidableEq, Repr

/-- The zeroed usage object the constructor and `initialize` install. -/
def zeroUsage : Usage :=
  { cost_today := 0, requests_today := 0, cost_month := 0, requests_month := 0 }

/-- `new CostTracker(apiClient)`: `userId = null`, `userTier = 'FREE'`,
all counters zero. -/
def CostTracker.new : CostTracker :=
  { userId := none, userTier := "FREE", currentUsage := zeroUsage }

/-- `CostTracker.initialize(userId, userTier = 'FREE')`: stores the user
and resets every counter to 0. -/
def CostTracker.initialize (t : CostTracker) (userId : String)
    (userTier : String) : CostTracker :=
  { t with userId := some userId, userTier := userTier, currentUsage := zeroUsage }

/-- `CostTracker.canMakeRequest(estimatedCost)`: the source returns `true`
unconditionally ("For demo purposes, always allow requests"); neither the
tracker state nor the estimated cost is consulted. -/
def CostTracker.canMakeRequest (_t : CostTracker) (_estimatedCost : ℚ) : Bool :=
  true

/-- `CostTracker.recordRequest(apiType, requestType, cost)`: adds `cost` to
`cost_today` and `cost_month` and increments `requests_today` and
`requests_month`; `apiType` and `requestType` are accepted but unused. -/
def CostTracker.recordRequest (t : CostTracker) (_apiType _requestType : String)
    (cost : ℚ) : CostTracker :=
  { t with currentUsage :=
    { cost_today := t.currentUsage.cost_today + cost
      requests_today := t.currentUsage.requests_today + 1
      cost_month := t.currentUsage.cost_month + cost
      requests_month := t.currentUsage.requests_month + 1 } }

/-- A recorded request as `recordRequest` receives it: the API type, the
request type and the charged cost.  No request identifier exists. -/
structure RecordedEvent where
  apiType : String
  requestType : String
  cost : ℚ
deriving DecidableEq, Repr

/-- Folding a sequence of recorded requests into the tracker. -/
def recordAll (t : CostTracker) (events : List RecordedEvent) : CostTracker :=
  events.foldl (fun s e => s.recordRequest e.apiType e.requestType e.cost) t

/-- The per-tier pricing row of `calculateSavings`. -/
structure TierPricing where
  baseCost : ℚ
  volumeDiscount : ℚ
deriving DecidableEq, Repr

/-- The `tierPricing` table inside `calculateSavings`
(`free: 0/0, basic: 0.05/0, premium: 0.03/0.4, enterprise: 0.02/0.6`);
`tierPricing[tier]` is `undefined` (`none`) for any other key. -/
def tierPricing : String → Option TierPricing
  | "free" => some { baseCost := 0, volumeDiscount := 0 }
  | "basic" => some { baseCost := 5 / 100, volumeDiscount := 0 }
  | "premium" => some { baseCost := 3 / 100, volumeDiscount := 4 / 10 }
  | "enterprise" => some { baseCost := 2 / 100, volumeDiscount := 6 / 10 }
  | _ => none

/-- `monthlyRequests * tierPricing[tier]?.baseCost || 0`: for an unknown
tier the optional chain yields `undefined`, the product is `NaN`, and
`NaN || 0` evaluates to `0`; for a known tier the product is returned
(a product equal to `0` is falsy, so `|| 0` still yields `0`, the same
value).  Over `ℚ` this is the match below. -/
def tierCost (monthlyRequests : ℚ) (tier : String) : ℚ :=
  match tierPricing tier with
  | some p => monthlyRequests * p.baseCost
  | none => 0

/-- `CostTracker.calculateSavings(currentTier, targetTier, monthlyRequests)`:
`Math.max(0, currentCost - targetCost)`. -/
def calculateSavings (currentTier targetTier : String) (monthlyRequests : ℚ) : ℚ :=
  max 0 (tierCost monthlyRequests currentTier - tierCost monthlyRequests targetTier)

/-- JavaScript's `Math.atan2(y, x)`, defined piecewise over the reals
exactly as ECMAScript specifies it on non-`NaN` finite inputs
(`Math.atan2(0, 0) = 0`). -/
noncomputable def atan2 (y x : ℝ) : ℝ :=
  if 0 < x then Real.arctan (y / x)
  else if x < 0 ∧ 0 ≤ y then Real.arctan (y / x) + Real.pi
  else if x < 0 ∧ y < 0 then Real.arctan (y / x) - Real.pi
  else if 0 < y then Real.pi / 2
  else if y < 0 then -(Real.pi / 2)
  else 0

/-- The intermediate `a` of `calculateDistance` (`src/utils/googleMaps.js`):
`sin(dLat/2)·sin(dLat/2) + cos(lat1·π/180)·cos(lat2·π/180)·sin(dLng/2)·sin(dLng/2)`
with `dLat = (lat2−lat1)·π/180` and `dLng = (lng2−lng1)·π/180`. -/
noncomputable def hav_a (lat1 lng1 lat2 lng2 : ℝ) : ℝ :=
  Real.sin ((lat2 - lat1) * Real.pi / 180 / 2) *
      Real.sin ((lat2 - lat1) * Real.pi / 180 / 2) +
    Real.cos (lat1 * Real.pi / 180) * Real.cos (lat2 * Real.pi / 180) *
      Real.sin ((lng2 - lng1) * Real.pi / 180 / 2) *
      Real.sin ((lng2 - lng1) * Real.pi / 180 / 2)

/-- `calculateDistance(lat1, lng1, lat2, lng2)` from `src/utils/googleMaps.js`:
`R = 6371`, `c = 2·atan2(√a, √(1−a))`, returns `R·c`. -/
noncomputable def calculateDistance (lat1 lng1 lat2 lng2 : ℝ) : ℝ :=
  6371 * (2 * atan2 (Real.sqrt (hav_a lat1 lng1 lat2 lng2))
    (Real.sqrt (1 - hav_a lat1 lng1 lat2 lng2)))

/-- The `a` of the spec's haversine formula (§4.1), written from the
spec's words: `a = sin²(Δlat/2) + cos(lat1)·cos(lat2)·sin²(Δlon/2)`,
angles in radians (degree inputs converted by `·π/180`). -/
noncomputable def specHav_a (lat1 lng1 lat2 lng2 : ℝ) : ℝ :=
  Real.sin ((lat2 - lat1) * Real.pi / 180 / 2) ^ 2 +
    Real.cos (lat1 * Real.pi / 180) * Real.cos (lat2 * Real.pi / 180) *
      Real.sin ((lng2 - lng1) * Real.pi / 180 / 2) ^ 2

/-- The spec's haversine distance, written from the spec's words:
`d = 2·R·atan2(√a, √(1−a))` with earth radius `R = 6371` km. -/
noncomputable def specHaversine (lat1 lng1 lat2 lng2 : ℝ) : ℝ :=
  2 * 6371 * atan2 (Real.sqrt (specHav_a lat1 lng1 lat2 lng2))
    (Real.sqrt (1 - specHav_a lat1 lng1 lat2 lng2))

/-- A geographic coordinate as the dashboard handles it. -/
structure LatLng where
  lat : ℝ
  lng : ℝ

/-- The filter distance inside `getDataInRadius`
(`src/geospatial-dashboard/src/data/dummyData.js`): the planar expression
`Math.sqrt((center.lat − itemLat)² + (center.lng − itemLng)²) * 111`,
annotated in the source as "Simple distance calculation (not precise but
good for demo)". -/
noncomputable def demoDistance (center : LatLng) (itemLat itemLng : ℝ) : ℝ :=
  Real.sqrt ((center.lat - itemLat) ^ 2 + (center.lng - itemLng) ^ 2) * 111

/-- `getDataInRadius(center, radiusKm, dataType)`: filters the dataset,
keeping the items whose `demoDistance` to the center is `≤ radiusKm`.
The per-dataType coordinate extraction (`geometry.coordinates` versus
`lat`/`lng` fields) is modelled by taking the items as coordinates. -/
noncomputable def getDataInRadius (data : List LatLng) (center : LatLng)
    (radiusKm : ℝ) : List LatLng :=
  data.filter fun item => decide (demoDistance center item.lat item.lng ≤ radiusKm)

/-- The externally visible operations of the `handleGetData` request
lifecycle (`src/App.jsx`): the cost estimate, the admission check (tagged
with the boolean it returned), the external data fetch, and the usage
record. -/
inductive Action where
  | estimateCost
  | admissionCheck (allowed : Bool)
  | fetchData
  | recordUsage
deriving DecidableEq, Repr

/-- The sequence of operations `handleGetData` performs, in source order,
as a function of the branch conditions the source reads: `user` non-null,
`user.paymentStatus === "paid"`, the region/path geometry being set,
the value returned by `costTracker.canMakeRequest(estimatedCost)`, and
whether the `apiClient` fetch succeeds.  The three validations return
before any operation; a `false` admission check notifies and returns
right after the estimate and the check; a thrown fetch lands in the
`catch` block (sample-data fallback) without reaching `recordRequest`.
The region and path branches have identical operation structure. -/
def handleGetData (loggedIn paid geometryReady admission fetchOk : Bool) :
    List Action :=
  if !loggedIn then []
  else if !paid then []
  else if !geometryReady then []
  else
    [Action.estimateCost, Action.admissionCheck admission] ++
      if !admission then []
      else
        [Action.fetchData] ++ if fetchOk then [Action.recordUsage] else []

/-- Modelled from the spec: the repository's backend — the FastAPI service
implementing `POST /data/estimate-cost/region` and
`POST /data/estimate-cost/path` — is not under `src/`
(`CostTracker.estimateRegionCost` and `estimatePathCost` only issue the
HTTP requests), so tier configuration follows spec §3. -/
structure TierConfig where
  baseCostPerRequest : ℝ
  perMbCost : ℝ
  volumeDiscount : ℝ
  monthlyRequestLimit : ℝ
  monthlyDataLimitMb : ℝ
  allowsRequests : Bool

/-- Modelled from the spec (§4.2):
`effectivePerMbCost = perMbCost × (1 − volumeDiscount)`. -/
def TierConfig.effectivePerMbCost (t : TierConfig) : ℝ :=
  t.perMbCost * (1 - t.volumeDiscount)

/-- Modelled from the spec (§3): the structured cost breakdown; `coverage`
carries `coverageAreaKm2` for a region and the buffered path measure for
a path. -/
structure CostBreakdown where
  baseCost : ℝ
  dataVolumeCost : ℝ
  processingCost : ℝ
  storageCost : ℝ
  totalCost : ℝ
  estimatedDataSizeMb : ℝ
  coverage : ℝ

/-- Modelled from the spec (§4.1): `regionAreaKm2(radiusKm) = π·radiusKm²`. -/
noncomputable def regionAreaKm2 (radiusKm : ℝ) : ℝ :=
  Real.pi * radiusKm ^ 2

/-- Modelled from the spec (§4.3, step 7): rounding a total to 4 decimal
places for currency display. -/
noncomputable def roundTo4 (x : ℝ) : ℝ :=
  ((round (x * 10000) : ℤ) : ℝ) / 10000

/-- Modelled from the spec (§4.3): the cost components computed from a
coverage measure — the spec prescribes the identical structure for region
(coverage = area) and path (coverage = length × buffer) estimates. -/
noncomputable def costFromCoverage (tier : TierConfig)
    (densityFactor processingRatePerKm2 storageRatePerMb coverage : ℝ) :
    CostBreakdown :=
  { baseCost := tier.baseCostPerRequest
    dataVolumeCost := coverage * densityFactor * tier.effectivePerMbCost
    processingCost := coverage * processingRatePerKm2
    storageCost := coverage * densityFactor * storageRatePerMb
    totalCost := roundTo4 (tier.baseCostPerRequest
      + coverage * densityFactor * tier.effectivePerMbCost
      + coverage * processingRatePerKm2
      + coverage * densityFactor * storageRatePerMb)
    estimatedDataSizeMb := coverage * densityFactor
    coverage := coverage }

/-- Modelled from the spec (§4.3): `estimateRegionCost` with
`area = regionAreaKm2(radiusKm)` as the coverage measure. -/
noncomputable def estimateRegionCost (tier : TierConfig)
    (densityFactor processingRatePerKm2 storageRatePerMb radiusKm : ℝ) :
    CostBreakdown :=
  costFromCoverage tier densityFactor processingRatePerKm2 storageRatePerMb
    (regionAreaKm2 radiusKm)

/-- Modelled from the spec (§4.3): the path coverage measure
`pathLengthKm × (2×bufferMeters/1000)`. -/
noncomputable def pathCoverage (pathLengthKm bufferMeters : ℝ) : ℝ :=
  pathLengthKm * (2 * bufferMeters / 1000)

/-- Modelled from the spec (§4.3): `estimatePathCost` as a function of the
already-computed great-circle path length and the buffer width. -/
noncomputable def estimatePathCostLen (tier : TierConfig)
    (densityFactor processingRatePerKm2 storageRatePerMb
      pathLengthKm bufferMeters : ℝ) : CostBreakdown :=
  costFromCoverage tier densityFactor processingRatePerKm2 storageRatePerMb
    (pathCoverage pathLengthKm bufferMeters)

/-- Modelled from the spec (§4.1, §4.3): `estimatePathCost(start, end, …)`
with the path length given by the spec's haversine formula. -/
noncomputable def estimatePathCost (tier : TierConfig)
    (densityFactor processingRatePerKm2 storageRatePerMb : ℝ)
    (startPoint endPoint : LatLng) (bufferMeters : ℝ) : CostBreakdown :=
  estimatePathCostLen tier densityFactor processingRatePerKm2 storageRatePerMb
    (specHaversine startPoint.lat startPoint.lng endPoint.lat endPoint.lng)
    bufferMeters

/-! ## Helper lemmas -/

/-- Every row of the pricing table has a nonnegative base cost. -/
lemma tierPricing_baseCost_nonneg (t : String) (p : TierPricing)
    (h : tierPricing t = some p) : 0 ≤ p.baseCost := by
  unfold tierPricing at h
  split at h <;> simp_all <;> subst h <;> norm_num

/-- With a nonnegative request count, every tier cost is nonnegative. -/
lemma tierCost_nonneg (r : ℚ) (t : String) (hr : 0 ≤ r) : 0 ≤ tierCost r t := by
  unfold tierCost
  split
  · case _ p hp => exact mul_nonneg hr (tierPricing_baseCost_nonneg t p hp)
  · exact le_refl 0

/-- `atan2 0 1 = 0` (the `0 < x` branch at `y = 0`). -/
lemma atan2_zero_one : atan2 0 1 = 0 := by
  rw [atan2, if_pos (show (0 : ℝ) < 1 by norm_num)]
  simp [Real.arctan_zero]

/-- For `0 ≤ t < π/2`, `atan2 (sin t) (cos t) = t`. -/
lemma atan2_sin_cos (t : ℝ) (h0 : 0 ≤ t) (h1 : t < Real.pi / 2) :
    atan2 (Real.sin t) (Real.cos t) = t := by
  have hcos : 0 < Real.cos t := by
    apply Real.cos_pos_of_mem_Ioo
    constructor
    · have := Real.pi_pos
      linarith
    · exact h1
  rw [atan2, if_pos hcos, ← Real.tan_eq_sin_div_cos]
  exact Real.arctan_tan (by have := Real.pi_pos; linarith) h1

/-- The haversine intermediate value vanishes on equal endpoints. -/
lemma hav_a_self (lat lng : ℝ) : hav_a lat lng lat lng = 0 := by
  rw [hav_a]
  rw [show (lat - lat) * Real.pi / 180 / 2 = 0 by ring,
    show (lng - lng) * Real.pi / 180 / 2 = 0 by ring, Real.sin_zero]
  ring

/-- The haversine intermediate value is symmetric in its endpoints. -/
lemma hav_a_symm (lat1 lng1 lat2 lng2 : ℝ) :
    hav_a lat2 lng2 lat1 lng1 = hav_a lat1 lng1 lat2 lng2 := by
  rw [hav_a, hav_a]
  rw [show (lat1 - lat2) * Real.pi / 180 / 2
      = -((lat2 - lat1) * Real.pi / 180 / 2) by ring,
    show (lng1 - lng2) * Real.pi / 180 / 2
      = -((lng2 - lng1) * Real.pi / 180 / 2) by ring,
    Real.sin_neg, Real.sin_neg]
  ring

/-- Membership in the filtered dataset unfolds to the planar test. -/
lemma mem_getDataInRadius (data : List LatLng) (center : LatLng)
    (radiusKm : ℝ) (p : LatLng) :
    p ∈ getDataInRadius data center radiusKm ↔
      p ∈ data ∧ demoDistance center p.lat p.lng ≤ radiusKm := by
  simp [getDataInRadius, List.mem_filter]

/-- Evaluating `calculateDistance` on a pure one-degree-latitude
separation: the code returns exactly `6371·π/180` km. -/
lemma calculateDistance_one_deg : calculateDistance 1 0 0 0
    = 6371 * (2 * (Real.pi / 360)) := by
  have hpi := Real.pi_pos
  have h_a : hav_a 1 0 0 0 = Real.sin (Real.pi / 360) * Real.sin (Real.pi / 360) := by
    rw [hav_a]
    rw [show ((0 : ℝ) - 1) * Real.pi / 180 / 2 = -(Real.pi / 360) by ring,
      show ((0 : ℝ) - 0) * Real.pi / 180 / 2 = 0 by ring,
      Real.sin_neg, Real.sin_zero]
    ring
  have hsin : 0 ≤ Real.sin (Real.pi / 360) :=
    Real.sin_nonneg_of_nonneg_of_le_pi (by linarith) (by linarith)
  have hcos : 0 ≤ Real.cos (Real.pi / 360) := by
    apply le_of_lt
    apply Real.cos_pos_of_mem_Ioo
    constructor <;> [linarith; linarith]
  have h1a : 1 - hav_a 1 0 0 0
      = Real.cos (Real.pi / 360) * Real.cos (Real.pi / 360) := by
    have hh := Real.sin_sq_add_cos_sq (Real.pi / 360)
    rw [pow_two, pow_two] at hh
    rw [h_a]
    linarith
  rw [calculateDistance, h1a, h_a, Real.sqrt_mul_self hsin, Real.sqrt_mul_self hcos,
    atan2_sin_cos (Real.pi / 360) (by linarith) (by linarith)]

/-- Rounding to 4 decimal places is monotone. -/
lemma roundTo4_mono {x y : ℝ} (h : x ≤ y) : roundTo4 x ≤ roundTo4 y := by
  rw [roundTo4, roundTo4]
  have hr : round (x * 10000) ≤ round (y * 10000) := by
    rw [round_eq, round_eq]
    exact Int.floor_le_floor (by linarith)
  have hc : ((round (x * 10000) : ℤ) : ℝ) ≤ ((round (y * 10000) : ℤ) : ℝ) :=
    Int.cast_le.mpr hr
  linarith

/-- The rounded total of `costFromCoverage` is monotone in the coverage
measure, given nonnegative rates and a volume discount of at most 1. -/
lemma costFromCoverage_total_mono (tier : TierConfig) (d p s : ℝ)
    (hd : 0 ≤ d) (hp : 0 ≤ p) (hs : 0 ≤ s)
    (hperMb : 0 ≤ tier.perMbCost) (hdisc : tier.volumeDiscount ≤ 1)
    {c1 c2 : ℝ} (hc : c1 ≤ c2) :
    (costFromCoverage tier d p s c1).totalCost
      ≤ (costFromCoverage tier d p s c2).totalCost := by
  have he : 0 ≤ tier.effectivePerMbCost :=
    mul_nonneg hperMb (by linarith)
  rw [costFromCoverage, costFromCoverage]
  apply roundTo4_mono
  have h1 : c1 * d * tier.effectivePerMbCost ≤ c2 * d * tier.effectivePerMbCost :=
    mul_le_mul_of_nonneg_right (mul_le_mul_of_nonneg_right hc hd) he
  have h2 : c1 * p ≤ c2 * p := mul_le_mul_of_nonneg_right hc hp
  have h3 : c1 * d * s ≤ c2 * d * s :=
    mul_le_mul_of_nonneg_right (mul_le_mul_of_nonneg_right hc hd) hs
  linarith

/-- Unfolding one step of `recordAll`. -/
lemma recordAll_cons (t : CostTracker) (e : RecordedEvent) (es : List RecordedEvent) :
    recordAll t (e :: es) = recordAll (t.recordRequest e.apiType e.requestType e.cost) es :=
  rfl

/-- `recordAll` grows `cost_today` by the sum of the recorded costs. -/
lemma recordAll_cost_today (events : List RecordedEvent) :
    ∀ t : CostTracker, (recordAll t events).currentUsage.cost_today
        = t.currentUsage.cost_today + (events.map RecordedEvent.cost).sum := by
  induction events with
  | nil => intro t; simp [recordAll]
  | cons e es ih =>
    intro t
    rw [recordAll_cons, ih]
    simp [CostTracker.recordRequest]
    ring

/-- `recordAll` grows `cost_month` by the sum of the recorded costs. -/
lemma recordAll_cost_month (events : List RecordedEvent) :
    ∀ t : CostTracker, (recordAll t events).currentUsage.cost_month
        = t.currentUsage.cost_month + (events.map RecordedEvent.cost).sum := by
  induction events with
  | nil => intro t; simp [recordAll]
  | cons e es ih =>
    intro t
    rw [recordAll_cons, ih]
    simp [CostTracker.recordRequest]
    ring

/-- `recordAll` grows `requests_today` by the number of recorded events. -/
lemma recordAll_requests_today (events : List RecordedEvent) :
    ∀ t : CostTracker, (recordAll t events).currentUsage.requests_today
        = t.currentUsage.requests_today + events.length := by
  induction events with
  | nil => intro t; simp [recordAll]
  | cons e es ih =>
    intro t
    rw [recordAll_cons, ih]
    simp [CostTracker.recordRequest]
    omega

/-- `recordAll` grows `requests_month` by the number of recorded events. -/
lemma recordAll_requests_month (events : List RecordedEvent) :
    ∀ t : CostTracker, (recordAll t events).currentUsage.requests_month
        = t.currentUsage.requests_month + events.length := by
  induction events with
  | nil => intro t; simp [recordAll]
  | cons e es ih =>
    intro t
    rw [recordAll_cons, ih]
    simp [CostTracker.recordRequest]
    omega

/-! ## Claims -/

/-- C1 (counterexample): with the current-period entry already at the
claimed limit (`requests_month = 100`, matching a tier monthly request
limit of 100 — no limit is stored anywhere in the tracker state), the
admission check still returns `true`, not `false` as the claim states:
`canMakeRequest` is a demo stub that never consults usage. -/
theorem canMakeRequest_at_limit_true :
    CostTracker.canMakeRequest
      { userId := some "user-1", userTier := "BASIC",
        currentUsage := { cost_today := 5, requests_today := 100,
                          cost_month := 5, requests_month := 100 } } 1000 = true :=
  rfl

/-- C1 (amended): `canMakeRequest` returns `true` for every tracker state
and every estimated cost; in particular it returns `true` at
`requestsUsed = 99` with a 1-request estimate (as the claim says), but
also at `requestsUsed = monthlyRequestLimit` (where the claim demands
`false`): client-side quota admission is not enforced. -/
theorem canMakeRequest_always_true :
    ∀ (t : CostTracker) (estimatedCost : ℚ),
      t.canMakeRequest estimatedCost = true :=
  fun _ _ => rfl

/-- C2 (counterexample): recording the same event (`"uhi"`, `"region"`,
cost 1) twice from a fresh tracker does not leave the ledger equal to
recording it once — the request counters reach 2, not 1.  `recordRequest`
carries no request identifier, so no deduplication is possible. -/
theorem record_twice_ne_once :
    ((CostTracker.new.recordRequest "uhi" "region" 1).recordRequest
        "uhi" "region" 1).currentUsage.requests_month = 2 ∧
    (CostTracker.new.recordRequest "uhi" "region" 1).currentUsage.requests_month
      = 1 := by
  decide

/-- C2 (amended): `recordRequest` performs no request-ID deduplication —
recording the same `(apiType, requestType, cost)` event twice adds the
cost twice and increments every request counter twice. -/
theorem recordRequest_not_idempotent :
    ∀ (t : CostTracker) (a r : String) (c : ℚ),
      ((t.recordRequest a r c).recordRequest a r c).currentUsage =
        { cost_today := t.currentUsage.cost_today + 2 * c
          requests_today := t.currentUsage.requests_today + 2
          cost_month := t.currentUsage.cost_month + 2 * c
          requests_month := t.currentUsage.requests_month + 2 } := by
  intro t a r c
  show Usage.mk (t.currentUsage.cost_today + c + c)
      (t.currentUsage.requests_today + 1 + 1)
      (t.currentUsage.cost_month + c + c)
      (t.currentUsage.requests_month + 1 + 1) = _
  simp only [Usage.mk.injEq]
  refine ⟨by ring, by trivial, by ring, by trivial⟩


/-- C3 (counterexample): a single `recordRequest` also changes the daily
counters of the same `currentUsage` entry, so the claim's "no other change
to that entry" fails whichever pair of fields `requestsUsed`/`costAccrued`
denote; moreover the entry has no `dataMbUsed` field and the event carries
no data size, so no data-volume accumulation can occur at all. -/
theorem record_changes_daily_counters :
    (( CostTracker.new.initialize "user-1" "BASIC").recordRequest
        "uhi" "region" 2).currentUsage.requests_today
      ≠ ( CostTracker.new.initialize "user-1" "BASIC").currentUsage.requests_today ∧
    (( CostTracker.new.initialize "user-1" "BASIC").recordRequest
        "uhi" "region" 2).currentUsage.cost_today
      ≠ ( CostTracker.new.initialize "user-1" "BASIC").currentUsage.cost_today := by
  constructor
  · decide
  · simp only [CostTracker.new, CostTracker.initialize, CostTracker.recordRequest,
      zeroUsage]
    norm_num

/-- C3 (amended): a single `recordRequest` adds exactly the event's cost to
both `cost_today` and `cost_month` and increments both `requests_today` and
`requests_month` by exactly 1, leaving `userId` and `userTier` unchanged;
consequently after any sequence of records from an initialized tracker the
monthly counters equal the number of events and the sum of their costs.
No data-volume counter exists. -/
theorem recordRequest_increments :
    (∀ (t : CostTracker) (a r : String) (c : ℚ),
        t.recordRequest a r c =
          { userId := t.userId, userTier := t.userTier,
            currentUsage :=
              { cost_today := t.currentUsage.cost_today + c
                requests_today := t.currentUsage.requests_today + 1
                cost_month := t.currentUsage.cost_month + c
                requests_month := t.currentUsage.requests_month + 1 } }) ∧
    (∀ (uid tier : String) (events : List RecordedEvent),
        (recordAll ( CostTracker.new.initialize uid tier) events).currentUsage.requests_month
            = events.length ∧
        (recordAll ( CostTracker.new.initialize uid tier) events).currentUsage.cost_month
            = (events.map RecordedEvent.cost).sum) := by
  constructor
  · intro t a r c
    rfl
  · intro uid tier events
    constructor
    · rw [recordAll_requests_month events ( CostTracker.new.initialize uid tier)]
      simp [CostTracker.new, CostTracker.initialize, zeroUsage]
    · rw [recordAll_cost_month events ( CostTracker.new.initialize uid tier)]
      simp [CostTracker.new, CostTracker.initialize, zeroUsage]

/-- C7: in every execution of `handleGetData` the operations occur in the
order estimate → admission check → fetch → record (every trace is a
sublist of that canonical sequence); when the admission check returns
`false`, neither the fetch nor the record occurs; and a record only ever
occurs in a trace whose admission check returned `true`. -/
theorem handleGetData_order :
    (∀ loggedIn paid geometryReady admission fetchOk : Bool,
        (handleGetData loggedIn paid geometryReady admission fetchOk).Sublist
          [Action.estimateCost, Action.admissionCheck admission,
            Action.fetchData, Action.recordUsage]) ∧
    (∀ loggedIn paid geometryReady fetchOk : Bool,
        Action.fetchData ∉ handleGetData loggedIn paid geometryReady false fetchOk ∧
        Action.recordUsage ∉ handleGetData loggedIn paid geometryReady false fetchOk) ∧
    (∀ loggedIn paid geometryReady admission fetchOk : Bool,
        Action.recordUsage ∈ handleGetData loggedIn paid geometryReady admission fetchOk →
          admission = true) := by
  refine ⟨?_, ?_, ?_⟩ <;> decide

/-- C7 (witness): the full happy-path trace is the canonical sequence, the
denied trace stops after the check, and the third part of the theorem
instantiated at a trace that does contain a record. -/
theorem handleGetData_order_witness :
    Action.recordUsage ∈ handleGetData true true true true true ∧ true = true :=
  ⟨by decide, handleGetData_order.2.2 true true true true true (by decide)⟩

/-- C8: the estimated total cost is monotonically non-decreasing in the
region radius, in the path buffer width, and in the path length, for a
fixed tier and data type (nonnegative per-dataType density, processing
and storage rates, nonnegative per-MB cost, volume discount ≤ 1). -/
theorem estimateCost_monotone :
    (∀ (tier : TierConfig) (d p s r1 r2 : ℝ),
        0 ≤ d → 0 ≤ p → 0 ≤ s → 0 ≤ tier.perMbCost → tier.volumeDiscount ≤ 1 →
        0 < r1 → r1 < r2 →
        (estimateRegionCost tier d p s r1).totalCost
          ≤ (estimateRegionCost tier d p s r2).totalCost) ∧
    (∀ (tier : TierConfig) (d p s len b1 b2 : ℝ),
        0 ≤ d → 0 ≤ p → 0 ≤ s → 0 ≤ tier.perMbCost → tier.volumeDiscount ≤ 1 →
        0 ≤ len → 0 ≤ b1 → b1 ≤ b2 →
        (estimatePathCostLen tier d p s len b1).totalCost
          ≤ (estimatePathCostLen tier d p s len b2).totalCost) ∧
    (∀ (tier : TierConfig) (d p s len1 len2 b : ℝ),
        0 ≤ d → 0 ≤ p → 0 ≤ s → 0 ≤ tier.perMbCost → tier.volumeDiscount ≤ 1 →
        0 ≤ len1 → len1 ≤ len2 → 0 ≤ b →
        (estimatePathCostLen tier d p s len1 b).totalCost
          ≤ (estimatePathCostLen tier d p s len2 b).totalCost) := by
  refine ⟨?_, ?_, ?_⟩
  · intro tier d p s r1 r2 hd hp hs hperMb hdisc h0 h12
    apply costFromCoverage_total_mono tier d p s hd hp hs hperMb hdisc
    rw [regionAreaKm2, regionAreaKm2]
    exact mul_le_mul_of_nonneg_left (pow_le_pow_left₀ h0.le h12.le 2) Real.pi_pos.le
  · intro tier d p s len b1 b2 hd hp hs hperMb hdisc hlen hb1 hb12
    apply costFromCoverage_total_mono tier d p s hd hp hs hperMb hdisc
    rw [pathCoverage, pathCoverage]
    exact mul_le_mul_of_nonneg_left (by linarith) hlen
  · intro tier d p s len1 len2 b hd hp hs hperMb hdisc hlen1 hlen12 hb
    apply costFromCoverage_total_mono tier d p s hd hp hs hperMb hdisc
    rw [pathCoverage, pathCoverage]
    exact mul_le_mul_of_nonneg_right hlen12 (by linarith)

/-- C8 (witness): the three monotonicity statements instantiated at a
concrete tier (base cost 1, per-MB cost 1, no discount) with unit rates,
radii 1 < 2, buffers 100 ≤ 200, and path lengths 5 ≤ 10. -/
theorem estimateCost_monotone_witness :
    (estimateRegionCost
        { baseCostPerRequest := 1, perMbCost := 1, volumeDiscount := 0, monthlyRequestLimit := 0, monthlyDataLimitMb := 0, allowsRequests := true }
        1 1 1 1).totalCost
      ≤ (estimateRegionCost
        { baseCostPerRequest := 1, perMbCost := 1, volumeDiscount := 0, monthlyRequestLimit := 0, monthlyDataLimitMb := 0, allowsRequests := true }
        1 1 1 2).totalCost ∧
    (estimatePathCostLen
        { baseCostPerRequest := 1, perMbCost := 1, volumeDiscount := 0, monthlyRequestLimit := 0, monthlyDataLimitMb := 0, allowsRequests := true }
        1 1 1 5 100).totalCost
      ≤ (estimatePathCostLen
        { baseCostPerRequest := 1, perMbCost := 1, volumeDiscount := 0, monthlyRequestLimit := 0, monthlyDataLimitMb := 0, allowsRequests := true }
        1 1 1 5 200).totalCost ∧
    (estimatePathCostLen
        { baseCostPerRequest := 1, perMbCost := 1, volumeDiscount := 0, monthlyRequestLimit := 0, monthlyDataLimitMb := 0, allowsRequests := true }
        1 1 1 5 100).totalCost
      ≤ (estimatePathCostLen
        { baseCostPerRequest := 1, perMbCost := 1, volumeDiscount := 0, monthlyRequestLimit := 0, monthlyDataLimitMb := 0, allowsRequests := true }
        1 1 1 10 100).totalCost :=
  ⟨estimateCost_monotone.1 _ 1 1 1 1 2 (by norm_num) (by norm_num) (by norm_num)
      (by show (0 : ℝ) ≤ 1; norm_num) (by show (0 : ℝ) ≤ 1; norm_num)
      (by norm_num) (by norm_num),
    estimateCost_monotone.2.1 _ 1 1 1 5 100 200 (by norm_num) (by norm_num)
      (by norm_num) (by show (0 : ℝ) ≤ 1; norm_num) (by show (0 : ℝ) ≤ 1; norm_num)
      (by norm_num) (by norm_num) (by norm_num),
    estimateCost_monotone.2.2 _ 1 1 1 5 10 100 (by norm_num) (by norm_num)
      (by norm_num) (by show (0 : ℝ) ≤ 1; norm_num) (by show (0 : ℝ) ≤ 1; norm_num)
      (by norm_num) (by norm_num) (by norm_num)⟩

/-- C9: starting from `initialize` (all counters 0), after every sequence
of `recordRequest` calls the daily and monthly totals coincide
(`requests_today = requests_month`, `cost_today = cost_month`): both are
incremented identically on every record, and `CostTracker` contains no
period-rollover code that could reset one but not the other or create a
fresh entry. -/
theorem today_month_counters_agree :
    ∀ (uid tier : String) (events : List RecordedEvent),
      (recordAll ( CostTracker.new.initialize uid tier) events).currentUsage.requests_today
        = (recordAll ( CostTracker.new.initialize uid tier) events).currentUsage.requests_month ∧
      (recordAll ( CostTracker.new.initialize uid tier) events).currentUsage.cost_today
        = (recordAll ( CostTracker.new.initialize uid tier) events).currentUsage.cost_month := by
  intro uid tier events
  constructor
  · rw [recordAll_requests_today events ( CostTracker.new.initialize uid tier),
      recordAll_requests_month events ( CostTracker.new.initialize uid tier)]
    simp [CostTracker.new, CostTracker.initialize, zeroUsage]
  · rw [recordAll_cost_today events ( CostTracker.new.initialize uid tier),
      recordAll_cost_month events ( CostTracker.new.initialize uid tier)]
    simp [CostTracker.new, CostTracker.initialize, zeroUsage]

/-- C4 (counterexample): the point one degree of latitude north of the
center is kept by `getDataInRadius` at radius 111.1 km (its planar
distance is `√1·111 = 111 ≤ 111.1`), yet its great-circle haversine
distance is `6371·π/180 ≈ 111.195 > 111.1` — so membership is not
equivalent to `haversineDistance ≤ radiusKm`: the filter uses a planar
approximation, not the great-circle formula of `calculateDistance`. -/
theorem getDataInRadius_not_haversine :
    (⟨1, 0⟩ : LatLng) ∈ getDataInRadius [⟨1, 0⟩] ⟨0, 0⟩ 111.1 ∧
    ¬ calculateDistance 1 0 0 0 ≤ 111.1 := by
  constructor
  · refine (mem_getDataInRadius _ _ _ _).mpr ⟨List.mem_singleton.mpr rfl, ?_⟩
    show Real.sqrt (((0 : ℝ) - 1) ^ 2 + ((0 : ℝ) - 0) ^ 2) * 111 ≤ 111.1
    rw [show ((0 : ℝ) - 1) ^ 2 + ((0 : ℝ) - 0) ^ 2 = 1 by norm_num, Real.sqrt_one]
    norm_num
  · rw [calculateDistance_one_deg]
    push_neg
    nlinarith [Real.pi_gt_d6]

/-- C4 (amended): `getDataInRadius` keeps a point iff its *planar*
distance `√((Δlat)² + (Δlng)²)·111` to the center is `≤ radiusKm` — an
equirectangular approximation, not the haversine great-circle formula
used by `calculateDistance`; the boundary is inclusive (`≤`, not `<`),
so a point at exactly `radiusKm` planar distance is included. -/
theorem getDataInRadius_planar_mem :
    ∀ (data : List LatLng) (center : LatLng) (radiusKm : ℝ) (p : LatLng),
      p ∈ getDataInRadius data center radiusKm ↔
        p ∈ data ∧ demoDistance center p.lat p.lng ≤ radiusKm :=
  mem_getDataInRadius

/-- C5: `calculateDistance` computes exactly the spec's haversine formula
with earth radius `R = 6371` km:
`a = sin²(Δlat/2) + cos(lat1)·cos(lat2)·sin²(Δlon/2)` and
`d = 2·R·atan2(√a, √(1−a))` (after degree-to-radian conversion). -/
theorem calculateDistance_eq_specHaversine :
    ∀ lat1 lng1 lat2 lng2 : ℝ,
      calculateDistance lat1 lng1 lat2 lng2 = specHaversine lat1 lng1 lat2 lng2 := by
  intro lat1 lng1 lat2 lng2
  have ha : hav_a lat1 lng1 lat2 lng2 = specHav_a lat1 lng1 lat2 lng2 := by
    rw [hav_a, specHav_a]; ring
  rw [calculateDistance, specHaversine, ha]; ring

/-- C6: the haversine distance of `calculateDistance` vanishes on equal
points and is symmetric in its two endpoints. -/
theorem calculateDistance_self_symm :
    (∀ lat lng : ℝ, calculateDistance lat lng lat lng = 0) ∧
    (∀ lat1 lng1 lat2 lng2 : ℝ,
      calculateDistance lat1 lng1 lat2 lng2 = calculateDistance lat2 lng2 lat1 lng1) := by
  constructor
  · intro lat lng
    rw [calculateDistance, hav_a_self, Real.sqrt_zero, sub_zero, Real.sqrt_one,
      atan2_zero_one]
    ring
  · intro lat1 lng1 lat2 lng2
    rw [calculateDistance, calculateDistance, hav_a_symm lat1 lng1 lat2 lng2]

/-- C10 (counterexample): with a recognized current tier (`premium`) and an
unrecognized target tier (`unknown`), `calculateSavings` returns the full
current cost `100 × 0.03 = 3`, not `0` — an unrecognized tier does not
force a zero result. -/
theorem calculateSavings_unknown_target_nonzero :
    calculateSavings "premium" "unknown" 100 = 3 ∧ (3 : ℚ) ≠ 0 := by
  have hp : tierPricing "premium" = some { baseCost := 3 / 100, volumeDiscount := 4 / 10 } :=
    rfl
  have hu : tierPricing "unknown" = none := rfl
  constructor
  · rw [calculateSavings]
    rw [show tierCost 100 "premium" = 100 * (3 / 100) by rw [tierCost, hp]]
    rw [show tierCost 100 "unknown" = 0 by rw [tierCost, hu]]
    rw [show (100 : ℚ) * (3 / 100) - 0 = 3 by norm_num]
    exact max_eq_right (by norm_num)
  · norm_num

/-- C10 (amended): `calculateSavings` is total (the optional chain
`tierPricing[tier]?.baseCost` prevents any throw; unknown tiers price to
`NaN || 0 = 0`) and always returns a value `≥ 0` (outer `Math.max(0, ·)`);
when the *current* tier is unrecognized (and `monthlyRequests ≥ 0`) the
result is 0, but an unrecognized *target* tier yields
`max(0, currentCost)`, which can be positive. -/
theorem calculateSavings_total_nonneg :
    (∀ (c t : String) (r : ℚ), 0 ≤ calculateSavings c t r) ∧
    (∀ (c t : String) (r : ℚ), 0 ≤ r → tierPricing c = none →
        calculateSavings c t r = 0) := by
  constructor
  · intro c t r
    exact le_max_left 0 _
  · intro c t r hr hc
    have hcost : tierCost r c = 0 := by simp [tierCost, hc]
    rw [calculateSavings, hcost, zero_sub]
    exact max_eq_left (neg_nonpos.mpr (tierCost_nonneg r t hr))

/-- C10 (witness): the amended theorem applied at concrete inputs — a
recognized pair is nonnegative, and an unrecognized current tier
(`"gold"`) with 100 monthly requests yields 0. -/
theorem calculateSavings_total_nonneg_witness :
    0 ≤ calculateSavings "basic" "premium" 100 ∧
    calculateSavings "gold" "basic" 100 = 0 :=
  ⟨calculateSavings_total_nonneg.1 "basic" "premium" 100,
   calculateSavings_total_nonneg.2 "gold" "basic" 100 (by norm_num) rfl⟩

end Civilytix
